import Mathlib

/- Verification of the composite-identifier codec and the dependency-inference
   logic of heat/engine/resources/neutron/router.py. Python strings are
   embedded as lists of characters; Python split and replace are
   re-implemented with Python semantics below. Property values are embedded as
   Option String, where none models both an absent key and an unresolved
   (None) value, which is what Python properties.get returns in either case. -/

/-- Python replace of the equals character by the colon character, as used on
the stored identifier by RouterInterface.handle_delete, line 245. -/
def replaceEq (s : List Char) : List Char :=
  s.map (fun c => if c = '=' then ':' else c)

/-- Python split on the colon character: splitting the empty string yields one
empty token, and every separator occurrence starts a new token. -/
def splitColon : List Char → List (List Char)
  | [] => [[]]
  | c :: cs =>
    let r := splitColon cs
    if c = ':' then [] :: r
    else (c :: r.headD []) :: r.tail

/-- Property-name constant SUBNET_ID of RouterInterface, line 184. -/
def subnetIdKey : List Char := String.toList "subnet_id"

/-- Property-name constant PORT_ID of RouterInterface, line 184. -/
def portIdKey : List Char := String.toList "port_id"

/-- Token-split parse performed by RouterInterface.handle_delete, lines
245-248: replace the equals character by the colon character, split on the
colon character, insert the implied subnet_id kind at position 1 when exactly
two tokens are present, then unpack exactly three tokens; any other token
count raises at the unpack, modelled as none. -/
def decodeInterfaceId (s : List Char) :
    Option (List Char × List Char × List Char) :=
  let tokens := splitColon (replaceEq s)
  let tokens2 :=
    if tokens.length = 2 then tokens.take 1 ++ subnetIdKey :: tokens.drop 1
    else tokens
  match tokens2 with
  | [r, k, v] => some (r, k, v)
  | _ => none

/-- Identifier minted by RouterInterface.handle_create, line 239: router_id,
colon, key, equals sign, value. -/
def encodeInterfaceId (router_id key value : List Char) : List Char :=
  router_id ++ ':' :: (key ++ '=' :: value)

/-- Attachment kind chosen by RouterInterface.handle_create, lines 230-235:
subnet_id when the subnet resolution yields a value, port_id otherwise. -/
inductive AttachKind
  | subnet_id
  | port_id
deriving DecidableEq

/-- Property key string that the chosen kind puts into the identifier. -/
def AttachKind.key : AttachKind → List Char
  | .subnet_id => subnetIdKey
  | .port_id => portIdKey

/-- Outcome of RouterInterface.handle_delete: early no-op return, a detach
call remove_interface_router(router_id, key, value), or a raise at the token
unpack. -/
inductive InterfaceDeleteResult
  | noop
  | detach (router_id key value : List Char)
  | malformed
deriving DecidableEq

/-- RouterInterface.handle_delete, lines 241-254: return at once when the
stored resource_id is falsy (None or empty); otherwise parse the identifier
and issue the detach call with the decoded triple. -/
def RouterInterface.handleDelete (resource_id : Option (List Char)) :
    InterfaceDeleteResult :=
  match resource_id with
  | none => .noop
  | some s =>
    if s = [] then .noop
    else
      match decodeInterfaceId s with
      | some (r, k, v) => .detach r k v
      | none => .malformed

/-- Outcome of RouterGateway.handle_delete: early no-op return, the detach
call remove_gateway_router(router_id) which receives only the router id, or a
raise at the two-token unpack. -/
inductive GatewayDeleteResult
  | noop
  | detach (router_id : List Char)
  | malformed
deriving DecidableEq

/-- Identifier minted by RouterGateway.handle_create, line 329: router_id,
colon, network_id, with no kind token. -/
def gatewayResourceId (router_id network_id : List Char) : List Char :=
  router_id ++ ':' :: network_id

/-- RouterGateway.handle_delete, lines 331-339: return at once when the stored
resource_id is falsy; otherwise split on the colon character into exactly
router_id and network_id and call remove_gateway_router(router_id). The
network component is bound but never used. -/
def RouterGateway.handleDelete (resource_id : Option (List Char)) :
    GatewayDeleteResult :=
  match resource_id with
  | none => .noop
  | some s =>
    if s = [] then .noop
    else
      match splitColon s with
      | [r, _n] => .detach r
      | _ => .malformed

/-- Template resource as seen by add_dependencies: the capability names it
answers has_interface for, a flat mapping from property name to resolved
value, and the MAP-typed external_gateway_info property of Router resources
(none for every other resource kind). -/
structure Resource where
  interfaces : List String
  props : List (String × Option String)
  externalGatewayInfo : Option (List (String × Option String))
deriving DecidableEq

/-- Python properties.get(name): the value of the property, none when the key
is absent or its value is unresolved None. -/
def Resource.get (r : Resource) (k : String) : Option String :=
  (r.props.lookup k).join

/-- Modelled from the spec: the engine base-class predicate
resource.has_interface(name), described as a capability-check predicate by
interface name, is not part of this excerpt; it is modelled as membership of
the name among the capabilities the resource declares. -/
def Resource.hasInterface (r : Resource) (i : String) : Bool :=
  r.interfaces.contains i

/-- Python boolean-or of two property values: the second when the first is
falsy (None or the empty string), the first otherwise. -/
def pyOrStr (a b : Option String) : Option String :=
  match a with
  | some s => if s = "" then b else some s
  | none => b

/-- Python dict.get(key) on the external_gateway_info map. -/
def dictGet (m : List (String × Option String)) (k : String) : Option String :=
  (m.lookup k).join

/-- Interface name checked at line 108 and line 312. -/
def OS_Neutron_Subnet : String := "OS::Neutron::Subnet"

/-- Interface name checked at line 303. -/
def OS_Neutron_RouterInterface : String := "OS::Neutron::RouterInterface"

/-- Subnet property name NETWORK; the subnet module is outside this excerpt,
the name mirrors the NETWORK constant of RouterGateway, line 269. -/
def networkKey : String := "network"

/-- Subnet property name NETWORK_ID, as for networkKey. -/
def networkIdKey : String := "network_id"

/-- Property name ROUTER_ID of RouterInterface and RouterGateway. -/
def routerIdKey : String := "router_id"

/-- Dependency edge (dependent, dependency) as inserted by deps += (a, b). -/
abbrev Edge := Resource × Resource

/-- Body of the sibling loop of Router.add_dependencies, lines 108-113: one
edge (self, res) when the sibling passes the subnet capability check and its
network (name, falling back to id when the name is falsy) equals the gateway
network value. -/
def routerSubnetRuleFor (gwNet : Option String) (self res : Resource) :
    List Edge :=
  if res.hasInterface OS_Neutron_Subnet = true ∧
      pyOrStr (res.get networkKey) (res.get networkIdKey) = gwNet
  then [(self, res)] else []

/-- Gateway-to-subnet edges contributed by Router.add_dependencies, lines
104-113: nothing when external_gateway_info is falsy (absent, None or the
empty dict), else the loop body over every stack resource in order. -/
def routerGwSubnetEdges (self : Resource) (stack : List Resource) :
    List Edge :=
  match self.externalGatewayInfo with
  | none => []
  | some gw =>
    if gw = [] then []
    else stack.flatMap (routerSubnetRuleFor (dictGet gw networkKey) self)

/-- Router.add_dependencies, lines 102-113. The superclass call on line 103
targets engine code outside this excerpt; per the spec the dependency sink
only accepts edge insertions, so the call is modelled as appending an
arbitrary list superEdges. -/
def Router.addDependencies (superEdges : List Edge) (self : Resource)
    (stack : List Resource) (deps : List Edge) : List Edge :=
  deps ++ superEdges ++ routerGwSubnetEdges self stack

/-- RouterInterface branch of the RouterGateway.add_dependencies loop, lines
303-308: an edge towards any router-interface-capable sibling declaring the
same router_id value as this resource. -/
def rgInterfaceRuleFor (self res : Resource) : List Edge :=
  if res.hasInterface OS_Neutron_RouterInterface = true ∧
      res.get routerIdKey = self.get routerIdKey
  then [(self, res)] else []

/-- Subnet branch of the RouterGateway.add_dependencies loop, lines 312-319:
an edge towards any subnet-capable sibling whose network (name or id, with
Python or semantics) equals the network (name or id) of this resource. -/
def rgSubnetRuleFor (self res : Resource) : List Edge :=
  if res.hasInterface OS_Neutron_Subnet = true ∧
      pyOrStr (res.get networkKey) (res.get networkIdKey)
        = pyOrStr (self.get networkKey) (self.get networkIdKey)
  then [(self, res)] else []

/-- Loop of RouterGateway.add_dependencies, lines 300-319: both branches are
checked for every resource of the stack, in template order. -/
def routerGatewayEdges (self : Resource) (stack : List Resource) : List Edge :=
  stack.flatMap (fun res => rgInterfaceRuleFor self res ++ rgSubnetRuleFor self res)

/-- RouterGateway.add_dependencies, lines 298-319, with the superclass call
modelled as appending an arbitrary list, as for Router.addDependencies. -/
def RouterGateway.addDependencies (superEdges : List Edge) (self : Resource)
    (stack : List Resource) (deps : List Edge) : List Edge :=
  deps ++ superEdges ++ routerGatewayEdges self stack

/-- Network of a subnet sibling as the claim words it: the network-name
property when present, otherwise the network-id property. This follows the
words of the spec, for comparison against the truthiness-based pyOrStr the
code uses. -/
def specSubnetNetwork (res : Resource) : Option String :=
  match res.get networkKey with
  | some s => some s
  | none => res.get networkIdKey

/-- Router resource whose gateway names network net-A. -/
def routerNetA : Resource := ⟨[], [], some [(networkKey, some "net-A")]⟩

/-- Subnet resource on network net-A. -/
def subnetNetA : Resource :=
  ⟨[OS_Neutron_Subnet], [(networkKey, some "net-A")], none⟩

/-- Subnet resource on network net-B. -/
def subnetNetB : Resource :=
  ⟨[OS_Neutron_Subnet], [(networkKey, some "net-B")], none⟩

/-- Subnet sibling declaring an empty-string network name together with the
network id net-A. -/
def subnetEmptyName : Resource :=
  ⟨[OS_Neutron_Subnet],
    [(networkKey, some ""), (networkIdKey, some "net-A")], none⟩

/-- Gateway-binding resource bound to router rtr-1; the capability it declares
is its own RouterGateway type. -/
def gatewayRtr1 : Resource :=
  ⟨["OS::Neutron::RouterGateway"], [(routerIdKey, some "rtr-1")], none⟩

/-- Router-interface resource bound to router rtr-1. -/
def interfaceRtr1 : Resource :=
  ⟨[OS_Neutron_RouterInterface], [(routerIdKey, some "rtr-1")], none⟩

/-- Gateway-binding resource with both its router and network references
resolved. -/
def resolvedGateway : Resource :=
  ⟨["OS::Neutron::RouterGateway"],
    [(routerIdKey, some "rtr-1"), (networkKey, some "net-A")], none⟩

/-- Gateway-binding resource none of whose references are resolved. -/
def plainGateway : Resource := ⟨[], [], none⟩

/-- Router-interface sibling whose router reference is unresolved. -/
def unresolvedInterfaceRes : Resource :=
  ⟨[OS_Neutron_RouterInterface], [], none⟩

-- Facts about the split and replace embeddings.

theorem splitColon_no_colon (l : List Char) (h : ':' ∉ l) :
    splitColon l = [l] := by
  induction l with
  | nil => rfl
  | cons c cs ih =>
    have hc : c ≠ ':' := fun hcc => h (hcc ▸ List.mem_cons_self c cs)
    have hcs : ':' ∉ cs := fun hm => h (List.mem_cons_of_mem c hm)
    simp [splitColon, hc, ih hcs]

theorem splitColon_sep (l rest : List Char) (h : ':' ∉ l) :
    splitColon (l ++ ':' :: rest) = l :: splitColon rest := by
  induction l with
  | nil => simp [splitColon]
  | cons c cs ih =>
    have hc : c ≠ ':' := fun hcc => h (hcc ▸ List.mem_cons_self c cs)
    have hcs : ':' ∉ cs := fun hm => h (List.mem_cons_of_mem c hm)
    simp [splitColon, hc, ih hcs]

theorem replaceEq_no_eq (l : List Char) (h : '=' ∉ l) : replaceEq l = l := by
  induction l with
  | nil => rfl
  | cons c cs ih =>
    have hc : c ≠ '=' := fun hcc => h (hcc ▸ List.mem_cons_self c cs)
    have hcs : '=' ∉ cs := fun hm => h (List.mem_cons_of_mem c hm)
    simp [replaceEq, hc]
    exact ih hcs

theorem replaceEq_append (a b : List Char) :
    replaceEq (a ++ b) = replaceEq a ++ replaceEq b :=
  List.map_append _ a b

theorem replaceEq_cons (c : Char) (cs : List Char) :
    replaceEq (c :: cs) = (if c = '=' then ':' else c) :: replaceEq cs := rfl

theorem decode_encode_aux (p v : List Char) (k : AttachKind)
    (hp1 : ':' ∉ p) (hp2 : '=' ∉ p) (hv1 : ':' ∉ v) (hv2 : '=' ∉ v) :
    decodeInterfaceId (encodeInterfaceId p k.key v) = some (p, k.key, v) := by
  have hk1 : ':' ∉ k.key := by cases k <;> decide
  have hk2 : '=' ∉ k.key := by cases k <;> decide
  have h1 : replaceEq (encodeInterfaceId p k.key v)
      = p ++ ':' :: (k.key ++ ':' :: v) := by
    unfold encodeInterfaceId
    rw [replaceEq_append, replaceEq_cons, replaceEq_append, replaceEq_cons]
    rw [replaceEq_no_eq p hp2, replaceEq_no_eq _ hk2, replaceEq_no_eq v hv2]
    norm_num
  have h2 : splitColon (replaceEq (encodeInterfaceId p k.key v))
      = [p, k.key, v] := by
    rw [h1, splitColon_sep p _ hp1, splitColon_sep k.key v hk1,
      splitColon_no_colon v hv1]
  simp [decodeInterfaceId, h2]

theorem attachKind_key_inj (k1 k2 : AttachKind) (h : k1.key = k2.key) :
    k1 = k2 := by
  cases k1 <;> cases k2 <;> first | rfl | (exfalso; exact absurd h (by decide))

-- Membership characterizations of the three loop branches.

theorem routerSubnetRuleFor_mem {gwNet : Option String} {self res : Resource}
    {e : Edge} :
    e ∈ routerSubnetRuleFor gwNet self res ↔
      (res.hasInterface OS_Neutron_Subnet = true ∧
        pyOrStr (res.get networkKey) (res.get networkIdKey) = gwNet ∧
        e = (self, res)) := by
  unfold routerSubnetRuleFor
  split_ifs with h
  · simp [h.1, h.2]
  · simp only [List.not_mem_nil, false_iff]
    intro hc
    exact h ⟨hc.1, hc.2.1⟩

theorem rgInterfaceRuleFor_mem {self res : Resource} {e : Edge} :
    e ∈ rgInterfaceRuleFor self res ↔
      (res.hasInterface OS_Neutron_RouterInterface = true ∧
        res.get routerIdKey = self.get routerIdKey ∧
        e = (self, res)) := by
  unfold rgInterfaceRuleFor
  split_ifs with h
  · simp [h.1, h.2]
  · simp only [List.not_mem_nil, false_iff]
    intro hc
    exact h ⟨hc.1, hc.2.1⟩

theorem rgSubnetRuleFor_mem {self res : Resource} {e : Edge} :
    e ∈ rgSubnetRuleFor self res ↔
      (res.hasInterface OS_Neutron_Subnet = true ∧
        pyOrStr (res.get networkKey) (res.get networkIdKey)
          = pyOrStr (self.get networkKey) (self.get networkIdKey) ∧
        e = (self, res)) := by
  unfold rgSubnetRuleFor
  split_ifs with h
  · simp [h.1, h.2]
  · simp only [List.not_mem_nil, false_iff]
    intro hc
    exact h ⟨hc.1, hc.2.1⟩

theorem routerGwSubnetEdges_mem {self : Resource} {stack : List Resource}
    {e : Edge} {gw : List (String × Option String)}
    (h1 : self.externalGatewayInfo = some gw) (h2 : gw ≠ []) :
    e ∈ routerGwSubnetEdges self stack ↔
      ∃ res ∈ stack,
        e ∈ routerSubnetRuleFor (dictGet gw networkKey) self res := by
  unfold routerGwSubnetEdges
  rw [h1]
  simp [h2, List.mem_flatMap]

theorem routerGwSubnetEdges_nil_of_empty_dict {self : Resource}
    {stack : List Resource} (h : self.externalGatewayInfo = some []) :
    routerGwSubnetEdges self stack = [] := by
  unfold routerGwSubnetEdges
  rw [h]
  simp

-- C1

/-- C1: for every parent id, kind among subnet_id and port_id, and value, the
parent and value non-empty and free of the colon and equals characters, the
handle_delete parse of the identifier minted by handle_create returns exactly
the original triple, and consequently the encoding is injective on that
space. -/
theorem interfaceId_roundtrip_and_injective :
    (∀ (p v : List Char) (k : AttachKind),
      p ≠ [] → v ≠ [] → ':' ∉ p → '=' ∉ p → ':' ∉ v → '=' ∉ v →
      decodeInterfaceId (encodeInterfaceId p k.key v) = some (p, k.key, v)) ∧
    (∀ (p1 v1 p2 v2 : List Char) (k1 k2 : AttachKind),
      p1 ≠ [] → v1 ≠ [] → ':' ∉ p1 → '=' ∉ p1 → ':' ∉ v1 → '=' ∉ v1 →
      p2 ≠ [] → v2 ≠ [] → ':' ∉ p2 → '=' ∉ p2 → ':' ∉ v2 → '=' ∉ v2 →
      encodeInterfaceId p1 k1.key v1 = encodeInterfaceId p2 k2.key v2 →
      p1 = p2 ∧ k1 = k2 ∧ v1 = v2) := by
  constructor
  · intro p v k _ _ hp1 hp2 hv1 hv2
    exact decode_encode_aux p v k hp1 hp2 hv1 hv2
  · intro p1 v1 p2 v2 k1 k2 _ _ hp1 hp2 hv1 hv2 _ _ hq1 hq2 hw1 hw2 henc
    have h1 := decode_encode_aux p1 v1 k1 hp1 hp2 hv1 hv2
    have h2 := decode_encode_aux p2 v2 k2 hq1 hq2 hw1 hw2
    rw [henc, h2] at h1
    obtain ⟨e2, e3, e4⟩ : p2 = p1 ∧ k2.key = k1.key ∧ v2 = v1 := by
      simpa using h1
    exact ⟨e2.symm, (attachKind_key_inj k2 k1 e3).symm, e4.symm⟩

/-- Witness for C1: the round trip evaluated on the concrete identifier for
parent r1, kind subnet_id and value sub1. -/
theorem interfaceId_roundtrip_applied :
    decodeInterfaceId
        (encodeInterfaceId (String.toList "r1") AttachKind.subnet_id.key
          (String.toList "sub1")) =
      some (String.toList "r1", AttachKind.subnet_id.key,
        String.toList "sub1") :=
  interfaceId_roundtrip_and_injective.1 (String.toList "r1")
    (String.toList "sub1") AttachKind.subnet_id (by decide) (by decide)
    (by decide) (by decide) (by decide) (by decide)

-- C2

/-- C2 as stated is refuted: the code takes the network-id fallback whenever
the network-name value is falsy, not only when it is absent. With a subnet
sibling declaring the empty-string network name together with network id
net-A, and a router gateway naming net-A, the code emits the edge although the
claim (network taken as the name whenever present) predicts no edge since the
empty string differs from net-A. -/
theorem gwSubnet_present_reading_refuted :
    subnetEmptyName.hasInterface OS_Neutron_Subnet = true ∧
    routerNetA.externalGatewayInfo = some [(networkKey, some "net-A")] ∧
    specSubnetNetwork subnetEmptyName = some "" ∧
    specSubnetNetwork subnetEmptyName ≠ some "net-A" ∧
    routerGwSubnetEdges routerNetA [subnetEmptyName] =
      [(routerNetA, subnetEmptyName)] := by decide

/-- C2 amended: with the sibling network read with Python truthiness (name
when present and non-empty, id otherwise), for every router declaring a
gateway naming network N and every subnet-capable sibling S of the stack, the
gateway-to-subnet rule emits the edge exactly when that network value equals
some N; this holds for the Router rule and for the subnet branch of the
RouterGateway rule, and on the concrete net-A and net-B examples. -/
theorem gwSubnet_edge_iff_truthy_network :
    (∀ (self S : Resource) (stack : List Resource)
      (gw : List (String × Option String)) (N : String),
      self.externalGatewayInfo = some gw → gw ≠ [] →
      dictGet gw networkKey = some N →
      S ∈ stack → S.hasInterface OS_Neutron_Subnet = true →
      ((self, S) ∈ routerGwSubnetEdges self stack ↔
        pyOrStr (S.get networkKey) (S.get networkIdKey) = some N)) ∧
    (∀ (self S : Resource) (stack : List Resource) (N : String),
      pyOrStr (self.get networkKey) (self.get networkIdKey) = some N →
      S ∈ stack → S.hasInterface OS_Neutron_Subnet = true →
      ((self, S) ∈ stack.flatMap (rgSubnetRuleFor self) ↔
        pyOrStr (S.get networkKey) (S.get networkIdKey) = some N)) ∧
    routerGwSubnetEdges routerNetA [subnetNetA] = [(routerNetA, subnetNetA)] ∧
    routerGwSubnetEdges routerNetA [subnetNetB] = [] := by
  refine ⟨?_, ?_, by decide, by decide⟩
  · intro self S stack gw N hgw hne hnet hmem hcap
    rw [routerGwSubnetEdges_mem hgw hne]
    constructor
    · rintro ⟨res, hres, hr⟩
      rw [routerSubnetRuleFor_mem] at hr
      obtain ⟨_, heq, hpair⟩ := hr
      obtain rfl : S = res := by simpa using hpair
      rw [hnet] at heq
      exact heq
    · intro h
      refine ⟨S, hmem, routerSubnetRuleFor_mem.mpr ⟨hcap, ?_, rfl⟩⟩
      rw [hnet]
      exact h
  · intro self S stack N hnet hmem hcap
    constructor
    · intro h
      rw [List.mem_flatMap] at h
      obtain ⟨res, hres, hr⟩ := h
      rw [rgSubnetRuleFor_mem] at hr
      obtain ⟨_, heq, hpair⟩ := hr
      obtain rfl : S = res := by simpa using hpair
      rw [hnet] at heq
      exact heq
    · intro h
      rw [List.mem_flatMap]
      refine ⟨S, hmem, rgSubnetRuleFor_mem.mpr ⟨hcap, ?_, rfl⟩⟩
      rw [hnet]
      exact h

/-- Witness for C2 amended: the Router-rule equivalence evaluated on the
concrete router naming net-A and the subnet sibling on net-A. -/
theorem gwSubnet_edge_iff_truthy_network_applied :
    (routerNetA, subnetNetA) ∈ routerGwSubnetEdges routerNetA [subnetNetA] ↔
      pyOrStr (subnetNetA.get networkKey) (subnetNetA.get networkIdKey) =
        some "net-A" :=
  gwSubnet_edge_iff_truthy_network.1 routerNetA subnetNetA [subnetNetA]
    [(networkKey, some "net-A")] "net-A" rfl (by decide) (by decide)
    (by decide) (by decide)

-- C3

/-- C3 as stated is refuted: the shared-router rule only considers siblings
passing the router-interface capability check. Two gateway-binding resources
both bound to router rtr-1 produce no edge, although the claim asserts the
edge is present. -/
theorem sharedRouter_gateway_sibling_refuted :
    gatewayRtr1.get routerIdKey = some "rtr-1" ∧
    routerGatewayEdges gatewayRtr1 [gatewayRtr1] = [] := by decide

/-- C3 amended: for a gateway-binding resource R and a sibling S that passes
the router-interface capability check, when both declare the same router
identifier the rule emits the edge (R, S); when they are bound to different
routers the shared-router rule emits no such edge; in particular a
gateway-binding resource and a router-interface resource both bound to rtr-1
yield exactly that edge. -/
theorem sharedRouter_edge_requires_interface_capability :
    (∀ (self S : Resource) (stack : List Resource) (r : String),
      S ∈ stack → S.hasInterface OS_Neutron_RouterInterface = true →
      self.get routerIdKey = some r → S.get routerIdKey = some r →
      (self, S) ∈ routerGatewayEdges self stack) ∧
    (∀ (self S : Resource) (stack : List Resource) (r1 r2 : String),
      self.get routerIdKey = some r1 → S.get routerIdKey = some r2 →
      r1 ≠ r2 → (self, S) ∉ stack.flatMap (rgInterfaceRuleFor self)) ∧
    routerGatewayEdges gatewayRtr1 [interfaceRtr1] =
      [(gatewayRtr1, interfaceRtr1)] := by
  refine ⟨?_, ?_, by decide⟩
  · intro self S stack r hmem hcap hself hS
    unfold routerGatewayEdges
    rw [List.mem_flatMap]
    refine ⟨S, hmem, List.mem_append_left _ ?_⟩
    refine rgInterfaceRuleFor_mem.mpr ⟨hcap, ?_, rfl⟩
    rw [hS, hself]
  · intro self S stack r1 r2 hself hS hne hmem
    rw [List.mem_flatMap] at hmem
    obtain ⟨res, hres, hr⟩ := hmem
    rw [rgInterfaceRuleFor_mem] at hr
    obtain ⟨_, heq, hpair⟩ := hr
    obtain rfl : S = res := by simpa using hpair
    rw [hS, hself] at heq
    exact hne (Option.some.inj heq).symm

/-- Witness for C3 amended: the gateway-binding resource bound to rtr-1
depends on the router-interface resource bound to rtr-1. -/
theorem sharedRouter_edge_applied :
    (gatewayRtr1, interfaceRtr1) ∈
      routerGatewayEdges gatewayRtr1 [interfaceRtr1] :=
  sharedRouter_edge_requires_interface_capability.1 gatewayRtr1 interfaceRtr1
    [interfaceRtr1] "rtr-1" (by decide) (by decide) (by decide) (by decide)

-- C4

/-- C4: the legacy two-token identifier r1 colon sub1 decodes to the same
triple as the modern three-token identifier with the subnet_id kind, namely
(r1, subnet_id, sub1); and for every input whose token split yields exactly
two tokens, the decoded kind is the implied subnet_id. -/
theorem legacy_two_token_decode :
    decodeInterfaceId (String.toList "r1:sub1") =
      some (String.toList "r1", subnetIdKey, String.toList "sub1") ∧
    decodeInterfaceId (String.toList "r1:subnet_id=sub1") =
      decodeInterfaceId (String.toList "r1:sub1") ∧
    (∀ (s t0 t1 : List Char), splitColon (replaceEq s) = [t0, t1] →
      decodeInterfaceId s = some (t0, subnetIdKey, t1)) := by
  refine ⟨by decide, by decide, ?_⟩
  intro s t0 t1 h
  simp [decodeInterfaceId, h]

/-- Witness for C4: the two-token rule evaluated on the concrete identifier
a colon b. -/
theorem legacy_two_token_decode_applied :
    decodeInterfaceId (String.toList "a:b") =
      some (String.toList "a", subnetIdKey, String.toList "b") :=
  legacy_two_token_decode.2.2 (String.toList "a:b") (String.toList "a")
    (String.toList "b") (by decide)

-- C5

/-- C5 as stated is refuted: the parse never rejects empty fields. The input
consisting of a single colon splits into two empty tokens, and the code
decodes it to the triple of an empty parent, the implied subnet_id kind and
an empty value instead of failing. -/
theorem decode_accepts_empty_fields :
    (splitColon (replaceEq (String.toList ":"))).length = 2 ∧
    decodeInterfaceId (String.toList ":") =
      some ([], subnetIdKey, []) := by decide

/-- C5 amended: decoding fails exactly when the token count after splitting
is neither 2 nor 3; empty decoded fields are not rejected. Decoding the
single token onlyonetoken fails, and decoding the empty identifier fails
likewise. -/
theorem decode_fails_iff_token_count :
    (∀ s : List Char, decodeInterfaceId s = none ↔
      ((splitColon (replaceEq s)).length ≠ 2 ∧
        (splitColon (replaceEq s)).length ≠ 3)) ∧
    decodeInterfaceId (String.toList "onlyonetoken") = none ∧
    decodeInterfaceId [] = none := by
  refine ⟨?_, by decide, by decide⟩
  intro s
  have h : ∀ t : List (List Char),
      (match (if t.length = 2 then t.take 1 ++ subnetIdKey :: t.drop 1
          else t) with
        | [r, k, v] => some (r, k, v)
        | _ => none) =
          (none : Option (List Char × List Char × List Char)) ↔
        (t.length ≠ 2 ∧ t.length ≠ 3) := by
    intro t
    rcases t with _ | ⟨a, _ | ⟨b, _ | ⟨c, _ | ⟨d, rest⟩⟩⟩⟩ <;> simp
  exact h (splitColon (replaceEq s))

-- C6

/-- C6 as stated is refuted: a sibling with an unresolved router reference is
not skipped when the inferring resource is equally unresolved, because the
comparison of the two None values succeeds. A gateway-binding resource whose
router_id is unresolved gains an edge towards a router-interface sibling
whose router_id is unresolved. -/
theorem unresolved_sibling_edge_refuted :
    unresolvedInterfaceRes.get routerIdKey = none ∧
    plainGateway.get routerIdKey = none ∧
    routerGatewayEdges plainGateway [unresolvedInterfaceRes] =
      [(plainGateway, unresolvedInterfaceRes)] := by decide

/-- C6 amended: a sibling whose matched network or router property values are
all unresolved is skipped by both rules, provided the inferring resource has
a resolved value on its side of the comparison; when both sides are
unresolved the two None values compare equal and an edge is emitted. -/
theorem unresolved_sibling_skipped_when_self_resolved :
    (∀ (self S : Resource) (stack : List Resource)
      (gw : List (String × Option String)) (N : String),
      self.externalGatewayInfo = some gw → dictGet gw networkKey = some N →
      S.get networkKey = none → S.get networkIdKey = none →
      (self, S) ∉ routerGwSubnetEdges self stack) ∧
    (∀ (self S : Resource) (stack : List Resource) (r N : String),
      self.get routerIdKey = some r →
      pyOrStr (self.get networkKey) (self.get networkIdKey) = some N →
      S.get routerIdKey = none → S.get networkKey = none →
      S.get networkIdKey = none →
      (self, S) ∉ routerGatewayEdges self stack) := by
  constructor
  · intro self S stack gw N hgw hnet h1 h2 hmem
    by_cases hgwe : gw = []
    · rw [hgwe] at hgw
      rw [routerGwSubnetEdges_nil_of_empty_dict hgw] at hmem
      exact List.not_mem_nil _ hmem
    · rw [routerGwSubnetEdges_mem hgw hgwe] at hmem
      obtain ⟨res, hres, hr⟩ := hmem
      rw [routerSubnetRuleFor_mem] at hr
      obtain ⟨_, heq, hpair⟩ := hr
      obtain rfl : S = res := by simpa using hpair
      rw [h1, h2, hnet] at heq
      simp [pyOrStr] at heq
  · intro self S stack r N hrid hnet h1 h2 h3 hmem
    unfold routerGatewayEdges at hmem
    rw [List.mem_flatMap] at hmem
    obtain ⟨res, hres, hr⟩ := hmem
    rw [List.mem_append] at hr
    rcases hr with hr | hr
    · rw [rgInterfaceRuleFor_mem] at hr
      obtain ⟨_, heq, hpair⟩ := hr
      obtain rfl : S = res := by simpa using hpair
      rw [h1, hrid] at heq
      exact Option.noConfusion heq
    · rw [rgSubnetRuleFor_mem] at hr
      obtain ⟨_, heq, hpair⟩ := hr
      obtain rfl : S = res := by simpa using hpair
      rw [h2, h3, hnet] at heq
      simp [pyOrStr] at heq

/-- Witness for C6 amended: both rules evaluated on concrete resolved
inferring resources and a fully unresolved sibling. -/
theorem unresolved_sibling_skipped_applied :
    (routerNetA, unresolvedInterfaceRes) ∉
      routerGwSubnetEdges routerNetA [unresolvedInterfaceRes] ∧
    (resolvedGateway, unresolvedInterfaceRes) ∉
      routerGatewayEdges resolvedGateway [unresolvedInterfaceRes] :=
  ⟨unresolved_sibling_skipped_when_self_resolved.1 routerNetA
      unresolvedInterfaceRes [unresolvedInterfaceRes]
      [(networkKey, some "net-A")] "net-A" rfl (by decide) (by decide)
      (by decide),
    unresolved_sibling_skipped_when_self_resolved.2 resolvedGateway
      unresolvedInterfaceRes [unresolvedInterfaceRes] "rtr-1" "net-A"
      (by decide) (by decide) (by decide) (by decide) (by decide)⟩

-- C7

/-- C7: when the external-gateway property of the resource is absent the
gateway-to-subnet rule contributes zero edges, and add_dependencies still
completes, returning the prior edges plus the superclass insertions. -/
theorem absent_gateway_property_zero_edges :
    ∀ (self : Resource) (stack : List Resource) (superEdges deps : List Edge),
      self.externalGatewayInfo = none →
      routerGwSubnetEdges self stack = [] ∧
      Router.addDependencies superEdges self stack deps =
        deps ++ superEdges := by
  intro self stack superEdges deps h
  have h0 : routerGwSubnetEdges self stack = [] := by
    unfold routerGwSubnetEdges
    rw [h]
  refine ⟨h0, ?_⟩
  unfold Router.addDependencies
  rw [h0, List.append_nil]

/-- Witness for C7: evaluated on the concrete gateway resource with no
external-gateway property, a non-empty stack and a non-empty prior edge
list. -/
theorem absent_gateway_property_zero_edges_applied :
    routerGwSubnetEdges plainGateway [subnetNetA] = [] ∧
    Router.addDependencies [] plainGateway [subnetNetA]
        [(plainGateway, subnetNetA)] =
      [(plainGateway, subnetNetA)] ++ [] :=
  absent_gateway_property_zero_edges plainGateway [subnetNetA] []
    [(plainGateway, subnetNetA)] rfl

-- C8

/-- C8: dependency inference is additive; every edge present before either
add_dependencies runs is still present afterwards, for every prior edge list
and every list of superclass insertions. -/
theorem addDependencies_preserves_edges :
    ∀ (superEdges deps : List Edge) (self : Resource)
      (stack : List Resource) (e : Edge),
      e ∈ deps →
      e ∈ Router.addDependencies superEdges self stack deps ∧
      e ∈ RouterGateway.addDependencies superEdges self stack deps := by
  intro superEdges deps self stack e he
  constructor
  · unfold Router.addDependencies
    exact List.mem_append_left _ (List.mem_append_left _ he)
  · unfold RouterGateway.addDependencies
    exact List.mem_append_left _ (List.mem_append_left _ he)

/-- Witness for C8: a concrete prior edge survives both add_dependencies
runs. -/
theorem addDependencies_preserves_edges_applied :
    (routerNetA, subnetNetA) ∈
      Router.addDependencies [] routerNetA [subnetNetB]
        [(routerNetA, subnetNetA)] ∧
    (routerNetA, subnetNetA) ∈
      RouterGateway.addDependencies [] routerNetA [subnetNetB]
        [(routerNetA, subnetNetA)] :=
  addDependencies_preserves_edges [] [(routerNetA, subnetNetA)] routerNetA
    [subnetNetB] (routerNetA, subnetNetA) (by decide)

-- C9

/-- C9: for both RouterInterface and RouterGateway, when the stored resource
identifier is unset (None or the empty string) handle_delete returns at once
as a no-op: no parse is attempted, no detach call is issued and nothing is
raised. -/
theorem handleDelete_noop_when_id_unset :
    ∀ rid : Option (List Char), (rid = none ∨ rid = some []) →
      RouterInterface.handleDelete rid = InterfaceDeleteResult.noop ∧
      RouterGateway.handleDelete rid = GatewayDeleteResult.noop := by
  intro rid h
  rcases h with rfl | rfl
  · exact ⟨rfl, rfl⟩
  · exact ⟨rfl, rfl⟩

/-- Witness for C9: both deletes evaluated on the unset identifier. -/
theorem handleDelete_noop_applied :
    RouterInterface.handleDelete none = InterfaceDeleteResult.noop ∧
    RouterGateway.handleDelete none = GatewayDeleteResult.noop :=
  handleDelete_noop_when_id_unset none (Or.inl rfl)

-- C10

/-- C10: RouterGateway mints the two-token identifier router_id colon
network_id with no kind token; its handle_delete splits it into exactly that
pair and issues a detach carrying only the router id, so the detach is
independent of the network id stored at create time. -/
theorem gateway_delete_ignores_network :
    ∀ r n1 n2 : List Char, ':' ∉ r → ':' ∉ n1 → ':' ∉ n2 →
      splitColon (gatewayResourceId r n1) = [r, n1] ∧
      RouterGateway.handleDelete (some (gatewayResourceId r n1)) =
        GatewayDeleteResult.detach r ∧
      RouterGateway.handleDelete (some (gatewayResourceId r n1)) =
        RouterGateway.handleDelete (some (gatewayResourceId r n2)) := by
  intro r n1 n2 hr h1 h2
  have hs1 : splitColon (gatewayResourceId r n1) = [r, n1] := by
    unfold gatewayResourceId
    rw [splitColon_sep r n1 hr, splitColon_no_colon n1 h1]
  have hs2 : splitColon (gatewayResourceId r n2) = [r, n2] := by
    unfold gatewayResourceId
    rw [splitColon_sep r n2 hr, splitColon_no_colon n2 h2]
  have hne1 : gatewayResourceId r n1 ≠ [] := by
    unfold gatewayResourceId
    simp
  have hne2 : gatewayResourceId r n2 ≠ [] := by
    unfold gatewayResourceId
    simp
  have hd1 : RouterGateway.handleDelete (some (gatewayResourceId r n1)) =
      GatewayDeleteResult.detach r := by
    simp [RouterGateway.handleDelete, hne1, hs1]
  have hd2 : RouterGateway.handleDelete (some (gatewayResourceId r n2)) =
      GatewayDeleteResult.detach r := by
    simp [RouterGateway.handleDelete, hne2, hs2]
  exact ⟨hs1, hd1, hd1.trans hd2.symm⟩

/-- Witness for C10: the delete evaluated on identifiers minted for router r1
with the two distinct networks n1 and n2. -/
theorem gateway_delete_ignores_network_applied :
    splitColon (gatewayResourceId (String.toList "r1") (String.toList "n1")) =
      [String.toList "r1", String.toList "n1"] ∧
    RouterGateway.handleDelete
        (some (gatewayResourceId (String.toList "r1") (String.toList "n1"))) =
      GatewayDeleteResult.detach (String.toList "r1") ∧
    RouterGateway.handleDelete
        (some (gatewayResourceId (String.toList "r1") (String.toList "n1"))) =
      RouterGateway.handleDelete
        (some (gatewayResourceId (String.toList "r1") (String.toList "n2"))) :=
  gateway_delete_ignores_network (String.toList "r1") (String.toList "n1")
    (String.toList "n2") (by decide) (by decide) (by decide)
